import Mathlib

/-!
# pgrag: `exts/rag_bge_small_en_v15/signature_check.c`

The file under study is one file-scope declaration,

    static bool (*_check_sig)() = &PostmasterIsAliveInternal;

preceded by three `#include` lines.  It contains no executable code: what it
does, it does through the C constraint on initialisation (ISO C 6.7.9p11,
6.5.16.1p1): a pointer may be initialised from a pointer only when the two
pointed-to types are compatible.  The development therefore embeds

* the C types that can occur in a function declaration (`CType`),
* type compatibility (ISO C 6.2.7, 6.7.6.1p2, 6.7.6.3p15) as `compat`,
* the translation unit itself as a small syntax tree (`signature_check`),
* the check of an initialised declaration (`checkDecl`) and what the unit
  contributes to a linked program (`includeUnit`).

The declared type of `PostmasterIsAliveInternal` comes from the host header
`storage/pmsignal.h`, which is not part of this repository; it is a parameter
of every definition that needs it.  The three headers are taken to
contribute declarations only, no definitions.

Types are modelled after typedef names and the `bool` macro of `stdbool.h`
are expanded; qualifiers, arrays, structures and enumerations do not occur
in the declaration under study and are left out.
-/

namespace SignatureCheck

/-! ## C types -/

/-- The arithmetic base types and `void`. -/
inductive Base where
  | void | bool | char | schar | uchar | short | ushort
  | int | uint | long | ulong | llong | ullong
  | float | double | ldouble
  deriving DecidableEq, Repr

mutual
/-- Unqualified C types: base types, pointers and function types. -/
inductive CType where
  | base (b : Base)
  | ptr (t : CType)
  | func (ret : CType) (ps : ParamSpec)
  deriving DecidableEq
/-- What a function declarator says about parameters: nothing (an empty
identifier list, `()` before C23), or a prototype, possibly ending in `...`. -/
inductive ParamSpec where
  | unspecified
  | proto (ps : PList) (variadic : Bool)
  deriving DecidableEq
/-- The parameter types of a prototype, after adjustment. -/
inductive PList where
  | nil
  | cons (p : CType) (rest : PList)
  deriving DecidableEq
end

/-- The list of parameter types of a prototype. -/
def PList.toList : PList → List CType
  | .nil => []
  | .cons p rest => p :: rest.toList

/-- Integer promotions and `float → double` on base types (ISO C 6.3.1.1p2,
6.5.2.2p6), for `int` wider than `short`. -/
def promoteBase : Base → Base
  | .bool | .char | .schar | .uchar | .short | .ushort => .int
  | .float => .double
  | b => b

/-- The default argument promotions. Pointers and function types are left as
they are. -/
def promote : CType → CType
  | .base b => .base (promoteBase b)
  | t => t

/-- A parameter type that the default argument promotions leave compatible
with itself; only base types can change. -/
def promotionStable : CType → Bool
  | .base b => promoteBase b == b
  | _ => true

/-- Every parameter of the list is promotion-stable. -/
def allPromotionStable : PList → Bool
  | .nil => true
  | .cons p rest => promotionStable p && allPromotionStable rest

mutual
/-- Type compatibility (ISO C 6.2.7p1, 6.7.6.1p2, 6.7.6.3p15). -/
def compat : CType → CType → Bool
  | .base a, .base b => a == b
  | .ptr a, .ptr b => compat a b
  | .func r1 p1, .func r2 p2 => compat r1 r2 && compatParams p1 p2
  | _, _ => false
/-- Compatibility of the parameter parts of two function types. -/
def compatParams : ParamSpec → ParamSpec → Bool
  | .unspecified, .unspecified => true
  | .unspecified, .proto ps v => !v && allPromotionStable ps
  | .proto ps v, .unspecified => !v && allPromotionStable ps
  | .proto ps1 v1, .proto ps2 v2 => (v1 == v2) && compatList ps1 ps2
/-- Pairwise compatibility of two parameter lists of the same length. -/
def compatList : PList → PList → Bool
  | .nil, .nil => true
  | .cons a as, .cons b bs => compat a b && compatList as bs
  | _, _ => false
end

/-! ## Language standard -/

/-- The language standard a unit is compiled under. `c17` stands for every
standard before C23 (C89, C99, C11, C17); `c23` for C23, where a declarator
with an empty parameter list declares a prototype with no parameters
(ISO C23 6.7.7.4p13). -/
inductive Std where
  | c17
  | c23
  deriving DecidableEq, Repr

mutual
/-- The C23 reading of a type as written: every `()` is `(void)`. -/
def voidProto : CType → CType
  | .base b => .base b
  | .ptr t => .ptr (voidProto t)
  | .func r ps => .func (voidProto r) (voidProtoParams ps)
/-- The C23 reading of the parameter part of a declarator. -/
def voidProtoParams : ParamSpec → ParamSpec
  | .unspecified => .proto .nil false
  | .proto ps v => .proto (voidProtoList ps) v
/-- The C23 reading of each parameter type. -/
def voidProtoList : PList → PList
  | .nil => .nil
  | .cons p rest => .cons (voidProto p) (voidProtoList rest)
end

/-- The type a written type denotes under a language standard. Values of
`CType` double as written types, `ParamSpec.unspecified` standing for `()`. -/
def resolve : Std → CType → CType
  | .c17, t => t
  | .c23, t => voidProto t

/-! ## Expressions and the constraint on initialisation -/

/-- The expressions that occur in the unit: identifiers and address-of. -/
inductive Expr where
  | ident (name : String)
  | addrOf (e : Expr)
  deriving DecidableEq, Repr

/-- A typing environment: the declarations in scope, by identifier. -/
abbrev Env := String → Option CType

/-- The type of an expression (ISO C 6.5.1p2, 6.5.3.2p3). -/
def Expr.type (env : Env) : Expr → Option CType
  | .ident x => env x
  | .addrOf e => (e.type env).map CType.ptr

/-- Function-to-pointer conversion of a function designator (ISO C 6.3.2.1p4). -/
def decay : CType → CType
  | .func r ps => .ptr (.func r ps)
  | t => t

/-- The type of the value of an expression used as an initialiser. -/
def Expr.valueType (env : Env) (e : Expr) : Option CType :=
  (e.type env).map decay

/-- The type `void`. -/
def isVoid : CType → Bool
  | .base b => b == Base.void
  | _ => false

/-- Function types. -/
def isFunc : CType → Bool
  | .func _ _ => true
  | _ => false

/-- The constraint of simple assignment, which initialisation of a scalar
shares (ISO C 6.5.16.1p1, 6.7.9p11), for an initialiser that is not a null
pointer constant: arithmetic from arithmetic, `_Bool` from a pointer, pointer
from a pointer to a compatible type, and object pointers to and from
`void *`. -/
def assignable : CType → CType → Bool
  | .base a, .base b => a != Base.void && b != Base.void
  | .base a, .ptr _ => a == Base.bool
  | .ptr a, .ptr b =>
      compat a b || (isVoid a && !isFunc b) || (isVoid b && !isFunc a)
  | _, _ => false

/-! ## The translation unit -/

/-- Storage-class specifier of a file-scope declaration. -/
inductive Storage where
  | static_
  | extern_
  | unspecified
  deriving DecidableEq, Repr

/-- Linkage of a file-scope identifier (ISO C 6.2.2p3-5). -/
inductive Linkage where
  | internal
  | external
  deriving DecidableEq, Repr

/-- Linkage given by the storage-class specifier at file scope. -/
def Storage.linkage : Storage → Linkage
  | .static_ => .internal
  | _ => .external

/-- A file-scope object declaration: storage class, identifier, type as
written, attributes (`__attribute__((...))` names), initialiser. -/
structure ObjDecl where
  storage : Storage
  name : String
  type : CType
  attrs : List String
  init : Option Expr

/-- Statements of a function body, as far as they can read, call or assign an
identifier. -/
inductive Stmt where
  | eval (e : Expr)
  | call (callee : Expr)
  | assign (lhs : String) (rhs : Expr)
  deriving DecidableEq, Repr

/-- A function definition. -/
structure FunDef where
  storage : Storage
  name : String
  type : CType
  body : List Stmt

/-- An external declaration of a translation unit, or an include directive. -/
inductive ExtDecl where
  | directive (header : String)
  | object (d : ObjDecl)
  | function (f : FunDef)

/-- Line 8 of `signature_check.c`:
`static bool (*_check_sig)() = &PostmasterIsAliveInternal;`. -/
def _check_sig : ObjDecl :=
  ObjDecl.mk
    Storage.static_
    "_check_sig"
    (.ptr (.func (.base .bool) .unspecified))
    []
    (some (.addrOf (.ident "PostmasterIsAliveInternal")))

/-- The whole of `signature_check.c`: lines 3, 4, 5 and 8. -/
def signature_check : List ExtDecl :=
  [ .directive "stdbool.h",
    .directive "c.h",
    .directive "storage/pmsignal.h",
    .object _check_sig ]

/-! ## The external function -/

/-- A function type: what a declaration such as
`extern bool PostmasterIsAliveInternal(void);` gives its identifier. -/
structure FunType where
  ret : CType
  params : ParamSpec
  deriving DecidableEq

/-- A function type without `...` whose parameter types the default argument
promotions leave unchanged. A type without prototype has neither. -/
def FunType.promotedNonVariadic (F : FunType) : Bool :=
  match F.params with
  | .unspecified => true
  | .proto ps v => !v && ps.toList.all (fun p => decide (promote p = p))

/-- A function type as a type. -/
def FunType.toCType (F : FunType) : CType :=
  .func F.ret F.params

/-- The declarations the included headers bring into scope, as far as the
unit refers to them: `PostmasterIsAliveInternal`, declared with type `F` as
written in `storage/pmsignal.h`. -/
def headerEnv (F : FunType) : Env :=
  fun x => if x = "PostmasterIsAliveInternal" then some F.toCType else none

/-! ## Checking the unit -/

/-- The constraint on the initialiser of an object declaration: the value of
the initialiser must be assignable to the declared type. An initialiser that
has no type (an undeclared identifier) is rejected too. -/
def checkDecl (std : Std) (env : Env) (d : ObjDecl) : Bool :=
  match d.init with
  | none => true
  | some e =>
    match e.valueType env with
    | none => false
    | some t => assignable (resolve std d.type) (resolve std t)

/-- The verdict of the guard when the host declares
`PostmasterIsAliveInternal` with type `F`. -/
def guardAccepts (std : Std) (F : FunType) : Bool :=
  checkDecl std (headerEnv F) _check_sig

/-- The function type the guard expects: the type `_check_sig` points to. -/
def expectedType (std : Std) : CType :=
  match resolve std _check_sig.type with
  | .ptr t => t
  | t => t

/-- An expression mentions an identifier. -/
def Expr.mentions (x : String) : Expr → Bool
  | .ident y => x == y
  | .addrOf e => e.mentions x

/-- A statement reads, calls or assigns an identifier. -/
def Stmt.mentions (x : String) : Stmt → Bool
  | .eval e => e.mentions x
  | .call c => c.mentions x
  | .assign l r => l == x || r.mentions x

/-- An external declaration refers to an identifier: in an initialiser or in
a function body. -/
def ExtDecl.mentions (x : String) : ExtDecl → Bool
  | .directive _ => false
  | .object d =>
    match d.init with
    | none => false
    | some e => e.mentions x
  | .function f => f.body.any (Stmt.mentions x)

/-- The declaration carries the attribute that silences the unused-variable
diagnostic (`__attribute__((unused))`, in PostgreSQL `pg_attribute_unused()`). -/
def markedUnused (d : ObjDecl) : Bool :=
  d.attrs.contains "unused"

/-- An object with internal linkage that nothing in the unit refers to and
that is not marked: what `-Wunused-variable` reports as defined but not
used. -/
def isUnused (tu : List ExtDecl) (d : ObjDecl) : Bool :=
  d.storage.linkage == Linkage.internal &&
    !(tu.any (ExtDecl.mentions d.name)) && !markedUnused d

mutual
/-- The type contains a function declarator without prototype. -/
def lacksPrototype : CType → Bool
  | .base _ => false
  | .ptr t => lacksPrototype t
  | .func r ps => lacksPrototype r || lacksPrototypeParams ps
/-- The parameter part is no prototype, or a parameter type lacks one. -/
def lacksPrototypeParams : ParamSpec → Bool
  | .unspecified => true
  | .proto ps _ => lacksPrototypeList ps
/-- Some parameter type contains a declarator without prototype. -/
def lacksPrototypeList : PList → Bool
  | .nil => false
  | .cons p rest => lacksPrototype p || lacksPrototypeList rest
end

/-- How a toolchain treats one kind of diagnostic: not reported (`-w`,
`-Wno-...`), reported as a warning, reported as an error (`-Werror`,
`-Werror=...`, or an error by default). -/
inductive Policy where
  | silent
  | warning
  | error
  deriving DecidableEq, Repr

/-- The settings of a compilation that the unit is sensitive to: the language
standard and the treatment of an initialiser of incompatible pointer type
(`-Wincompatible-pointer-types`: a warning by default in GCC before 14, an
error since), of an unused binding (`-Wunused-variable`) and of a declarator
without prototype (`-Wstrict-prototypes`). -/
structure Toolchain where
  std : Std
  mismatch : Policy
  unused : Policy
  prototypes : Policy

/-- The same toolchain with another treatment of unused bindings. -/
def Toolchain.withUnused (tc : Toolchain) (pol : Policy) : Toolchain :=
  Toolchain.mk tc.std tc.mismatch pol tc.prototypes

/-- The diagnostics the unit can draw. -/
inductive Diag where
  | incompatibleInit (name : String)
  | unusedVariable (name : String)
  | notAPrototype (name : String)
  deriving DecidableEq, Repr

/-- The diagnostic is about the type of the binding, not about its use. -/
def Diag.aboutType : Diag → Bool
  | .incompatibleInit _ => true
  | .notAPrototype _ => true
  | .unusedVariable _ => false

/-- Whether a diagnostic stops the build. -/
inductive Severity where
  | warning
  | error
  deriving DecidableEq, Repr

/-- The severity a policy gives a diagnostic, if it reports it at all. -/
def Policy.severity : Policy → Option Severity
  | .silent => none
  | .warning => some Severity.warning
  | .error => some Severity.error

/-- A diagnostic as reported under a policy. -/
def report (pol : Policy) (d : Diag) : List (Diag × Severity) :=
  match pol.severity with
  | none => []
  | some sev => [(d, sev)]

/-- The diagnostics of one object declaration: for an initialiser that
violates the constraint, for a binding that is unused, and for a declared
type with a declarator without prototype, each as the toolchain treats it. -/
def declDiagnostics (tc : Toolchain) (env : Env) (tu : List ExtDecl) :
    ExtDecl → List (Diag × Severity)
  | .object d =>
    (if checkDecl tc.std env d then []
      else report tc.mismatch (Diag.incompatibleInit d.name)) ++
    (if isUnused tu d then report tc.unused (Diag.unusedVariable d.name) else []) ++
    (if lacksPrototype (resolve tc.std d.type) then
      report tc.prototypes (Diag.notAPrototype d.name) else [])
  | _ => []

/-- The diagnostics of a translation unit. -/
def diagnostics (tc : Toolchain) (env : Env) (tu : List ExtDecl) :
    List (Diag × Severity) :=
  (tu.map (declDiagnostics tc env tu)).flatten

/-- The build of the unit fails: some diagnostic is an error. -/
def buildFails (tc : Toolchain) (env : Env) (tu : List ExtDecl) : Bool :=
  (diagnostics tc env tu).any (fun d => d.2 == Severity.error)

/-! ## What the unit contributes to a program -/

/-- Values of static initialisers: the address of a named function or
object. -/
inductive Val where
  | addr (sym : String)
  | indeterminate
  deriving DecidableEq, Repr

/-- The value of an address constant (ISO C 6.6p9). -/
def constEval : Expr → Val
  | .addrOf (.ident f) => .addr f
  | .ident f => .addr f
  | _ => .indeterminate

/-- The bindings of a program that every unit can see: objects and functions
with external linkage. -/
structure Program where
  objects : List (String × Val)
  functions : List (String × List Stmt)

/-- A program together with what one unit keeps to itself: its objects and
functions with internal linkage. -/
structure Linked where
  program : Program
  ownObjects : List (String × Val)
  ownFunctions : List (String × List Stmt)

/-- The value an object definition starts with. -/
def ObjDecl.initVal (d : ObjDecl) : Val :=
  match d.init with
  | none => .indeterminate
  | some e => constEval e

/-- Adding one external declaration: a definition binds its identifier, in
the program when the linkage is external and in the unit otherwise; a
directive and a declaration marked `extern` without initialiser define
nothing. -/
def includeDecl (l : Linked) : ExtDecl → Linked
  | .directive _ => l
  | .object d =>
    match d.storage, d.init with
    | .extern_, none => l
    | _, _ =>
      match d.storage.linkage with
      | .external =>
        Linked.mk (Program.mk (l.program.objects ++ [(d.name, d.initVal)]) l.program.functions)
          l.ownObjects l.ownFunctions
      | .internal =>
        Linked.mk l.program (l.ownObjects ++ [(d.name, d.initVal)]) l.ownFunctions
  | .function f =>
    match f.storage.linkage with
    | .external =>
      Linked.mk (Program.mk l.program.objects (l.program.functions ++ [(f.name, f.body)]))
        l.ownObjects l.ownFunctions
    | .internal =>
      Linked.mk l.program l.ownObjects (l.ownFunctions ++ [(f.name, f.body)])

/-- Adding a translation unit to a program. -/
def includeUnit (tu : List ExtDecl) (p : Program) : Linked :=
  tu.foldl includeDecl (Linked.mk p [] [])

/-- The function definitions of a unit. -/
def functionDefs (tu : List ExtDecl) : List String :=
  tu.filterMap fun
    | .function f => some f.name
    | _ => none

/-- The object definitions of a unit, with their linkage. -/
def objectDefs (tu : List ExtDecl) : List (String × Linkage) :=
  tu.filterMap fun
    | .object d =>
      match d.storage, d.init with
      | .extern_, none => none
      | _, _ => some (d.name, d.storage.linkage)
    | _ => none

/-! ## Sample function types -/

/-- The type `bool (void)`. -/
def boolOfVoid : FunType := FunType.mk (.base .bool) (.proto .nil false)

/-- The type `bool ()`, written like the expected type. -/
def boolOfUnspecified : FunType := FunType.mk (.base .bool) .unspecified

/-- The type `bool (int)`. -/
def boolOfInt : FunType := FunType.mk (.base .bool) (.proto (.cons (.base .int) .nil) false)

/-- The type `int (void)`. -/
def intOfVoid : FunType := FunType.mk (.base .int) (.proto .nil false)

/-- The type `bool (char)`. -/
def boolOfChar : FunType := FunType.mk (.base .bool) (.proto (.cons (.base .char) .nil) false)

/-- The type `bool (int, ...)`. -/
def boolOfIntVariadic : FunType :=
  FunType.mk (.base .bool) (.proto (.cons (.base .int) .nil) true)

/-- A header environment that declares `PostmasterIsAliveInternal` with type
`F` and every other identifier as an `int` object. -/
def crowdedEnv (F : FunType) : Env :=
  fun x => if x = "PostmasterIsAliveInternal" then some F.toCType else some (.base .int)

/-- A toolchain before C23 with the defaults of GCC 12 and unused bindings
as errors (`-Werror=unused-variable`). -/
def strictC17 : Toolchain := Toolchain.mk .c17 .warning .error .silent

/-- A toolchain before C23 with the defaults of GCC 12 and `-Wall`: unused
bindings are warnings. -/
def warningC17 : Toolchain := Toolchain.mk .c17 .warning .warning .silent

/-- A toolchain before C23 with `-Wall -Wstrict-prototypes`. -/
def prototypesC17 : Toolchain := Toolchain.mk .c17 .warning .warning .warning

/-- A toolchain before C23 with `-Wno-incompatible-pointer-types
-Werror=unused-variable`. -/
def quietMismatchC17 : Toolchain := Toolchain.mk .c17 .silent .error .silent

/-! ## Lemmas on compatibility -/

mutual
/-- Every type is compatible with itself. -/
theorem compat_refl : ∀ t : CType, compat t t = true
  | .base b => by simp [compat]
  | .ptr t => by simp [compat, compat_refl t]
  | .func r ps => by simp [compat, compat_refl r, compatParams_refl ps]
/-- Every parameter part is compatible with itself. -/
theorem compatParams_refl : ∀ ps : ParamSpec, compatParams ps ps = true
  | .unspecified => by simp [compatParams]
  | .proto ps v => by simp [compatParams, compatList_refl ps]
/-- Every parameter list is compatible with itself. -/
theorem compatList_refl : ∀ ps : PList, compatList ps ps = true
  | .nil => by simp [compatList]
  | .cons p rest => by simp [compatList, compat_refl p, compatList_refl rest]
end

/-- The shortcut `promotionStable` is the test of ISO C 6.7.6.3p15: the
parameter type is compatible with its promoted type. -/
theorem promotionStable_eq_compat (p : CType) :
    promotionStable p = compat (promote p) p := by
  cases p with
  | base b => cases b <;> rfl
  | ptr t => simp [promotionStable, promote, compat_refl]
  | func r ps => simp [promotionStable, promote, compat_refl]

/-- A parameter type that the promotions leave unchanged is promotion-stable. -/
theorem promotionStable_of_promote_eq (p : CType) (h : promote p = p) :
    promotionStable p = true := by
  rw [promotionStable_eq_compat, h, compat_refl]

/-- A list of parameter types that the promotions leave unchanged. -/
theorem allPromotionStable_of_promote_eq :
    ∀ ps : PList, (∀ p ∈ ps.toList, promote p = p) → allPromotionStable ps = true
  | .nil, _ => rfl
  | .cons p rest, h => by
    have hp : promotionStable p = true :=
      promotionStable_of_promote_eq p (h p (by simp [PList.toList]))
    have hr : allPromotionStable rest = true :=
      allPromotionStable_of_promote_eq rest
        (fun q hq => h q (by simp [PList.toList, hq]))
    simp [allPromotionStable, hp, hr]

/-- Only a base type is compatible with a base type, and only the same one. -/
theorem eq_base_of_compat_base (b : Base) (t : CType)
    (h : compat (.base b) t = true) : t = .base b := by
  cases t with
  | base c => simp [compat] at h; rw [h]
  | ptr t => simp [compat] at h
  | func r ps => simp [compat] at h

/-- The C23 reading maps only a base type to a base type. -/
theorem eq_base_of_voidProto_eq_base (b : Base) (t : CType)
    (h : voidProto t = .base b) : t = .base b := by
  cases t with
  | base c => simpa [voidProto] using h
  | ptr t => simp [voidProto] at h
  | func r ps => simp [voidProto] at h

/-! ## The verdict of the guard, unfolded -/

/-- The guard accepts exactly when the expected function type and the
declared type of the external function are compatible. -/
theorem guardAccepts_eq_compat (std : Std) (F : FunType) :
    guardAccepts std F = compat (expectedType std) (resolve std F.toCType) := by
  cases std <;>
    simp [guardAccepts, checkDecl, _check_sig, Expr.valueType, Expr.type, headerEnv,
      decay, resolve, assignable, expectedType, FunType.toCType, voidProto, isVoid, isFunc]

/-- Before C23 the guard tests the return type, the absence of `...` and the
promotion-stability of the parameters. -/
theorem guardAccepts_c17 (F : FunType) :
    guardAccepts .c17 F =
      (compat (.base .bool) F.ret && compatParams .unspecified F.params) := by
  simp [guardAccepts_eq_compat, expectedType, resolve, _check_sig, FunType.toCType, compat]

/-- Under C23 the guard tests the return type and that the external function
has a prototype without parameters. -/
theorem guardAccepts_c23 (F : FunType) :
    guardAccepts .c23 F =
      (compat (.base .bool) (voidProto F.ret) &&
        compatParams (.proto .nil false) (voidProtoParams F.params)) := by
  simp [guardAccepts_eq_compat, expectedType, resolve, _check_sig, FunType.toCType, compat,
    voidProto, voidProtoParams]

/-- The declared type of `_check_sig` lacks a prototype before C23 only. -/
theorem lacksPrototype_check_sig (std : Std) :
    lacksPrototype (resolve std _check_sig.type) = decide (std = Std.c17) := by
  cases std <;> decide

/-- The diagnostics of the unit: the one for the initialiser when the guard
rejects, the one for the unused binding, and before C23 the one for the
declarator without prototype. -/
theorem diagnostics_signature_check (tc : Toolchain) (F : FunType) :
    diagnostics tc (headerEnv F) signature_check =
      (if guardAccepts tc.std F then []
        else report tc.mismatch (Diag.incompatibleInit "_check_sig")) ++
      report tc.unused (Diag.unusedVariable "_check_sig") ++
      (if tc.std = Std.c17 then report tc.prototypes (Diag.notAPrototype "_check_sig")
        else []) := by
  have hu : isUnused [ExtDecl.directive "stdbool.h", ExtDecl.directive "c.h",
      ExtDecl.directive "storage/pmsignal.h", ExtDecl.object _check_sig] _check_sig = true := by
    decide
  have hl := lacksPrototype_check_sig tc.std
  have hn : _check_sig.name = "_check_sig" := rfl
  simp only [diagnostics, signature_check, declDiagnostics, hu, hl, hn, guardAccepts,
    List.map_cons, List.map_nil, List.flatten_cons, List.flatten_nil, List.nil_append,
    List.append_nil, if_true, decide_eq_true_eq]

/-! ## The claims -/

/-- C1 (evaluated where it fails): compiled under a standard before C23, the
guard accepts the external function declared as `bool (int)`, although that
type differs in its parameter list both from the expected type `bool ()` and
from `bool (void)`; under C23 the same declaration is rejected. -/
theorem C1_changed_parameter_list_accepted :
    guardAccepts .c17 boolOfInt = true ∧
    boolOfInt.toCType ≠ expectedType .c17 ∧
    boolOfInt ≠ boolOfVoid ∧
    guardAccepts .c23 boolOfInt = false := by
  decide

/-- C2 as stated fails: with `PostmasterIsAliveInternal` declared as
`bool (void)` the guard accepts, yet under a toolchain that treats unused
bindings as errors the build of the unit fails, and under a toolchain that
reports declarators without prototype the unit draws a diagnostic about the
type of the binding. -/
theorem C2_exact_type_fails_strict_build :
    guardAccepts strictC17.std boolOfVoid = true ∧
    buildFails strictC17 (headerEnv boolOfVoid) signature_check = true ∧
    guardAccepts prototypesC17.std boolOfVoid = true ∧
    (Diag.notAPrototype "_check_sig", Severity.warning) ∈
      diagnostics prototypesC17 (headerEnv boolOfVoid) signature_check ∧
    (Diag.notAPrototype "_check_sig").aboutType = true := by
  decide

/-- C2 amended: when `PostmasterIsAliveInternal` is declared as `bool (void)`
the guard accepts and the unit draws no type-incompatibility diagnostic, under
every toolchain; the build succeeds where the toolchain treats neither unused
bindings nor declarators without prototype as errors; and where the toolchain
does not report declarators without prototype no diagnostic is about the type
of the binding. The guard also accepts the declaration `bool ()`, written
like the expected type. -/
theorem C2_exact_type_accepted (tc : Toolchain) :
    guardAccepts tc.std boolOfVoid = true ∧
    guardAccepts tc.std boolOfUnspecified = true ∧
    (∀ sev : Severity,
      (Diag.incompatibleInit "_check_sig", sev) ∉
        diagnostics tc (headerEnv boolOfVoid) signature_check) ∧
    (tc.unused ≠ Policy.error → tc.prototypes ≠ Policy.error →
      buildFails tc (headerEnv boolOfVoid) signature_check = false) ∧
    (tc.prototypes = Policy.silent →
      ∀ d ∈ diagnostics tc (headerEnv boolOfVoid) signature_check,
        d.1.aboutType = false) := by
  have hall : ∀ std : Std, guardAccepts std boolOfVoid = true ∧
      guardAccepts std boolOfUnspecified = true := by
    intro std
    cases std <;> decide
  have hv : guardAccepts tc.std boolOfVoid = true := (hall tc.std).1
  refine ⟨hv, (hall tc.std).2, ?_, ?_, ?_⟩
  · intro sev
    rw [diagnostics_signature_check, hv]
    cases tc with
    | mk std mismatch unused prototypes =>
      cases std <;> cases unused <;> cases prototypes <;>
        simp [report, Policy.severity]
  · intro h1 h2
    rw [buildFails, diagnostics_signature_check, hv]
    cases tc with
    | mk std mismatch unused prototypes =>
      cases std <;> cases unused <;> cases prototypes <;>
        first
        | exact absurd rfl h1
        | exact absurd rfl h2
        | simp [report, Policy.severity]
  · intro h d hd
    rw [diagnostics_signature_check, hv] at hd
    cases tc with
    | mk std mismatch unused prototypes =>
      simp only at h
      subst h
      cases std <;> cases unused <;>
        simp [report, Policy.severity] at hd <;>
        simp [hd, Diag.aboutType]

/-- Witness of C2 amended: the defaults of GCC 12 with `-Wall`. -/
theorem C2_exact_type_accepted_witness :
    warningC17.unused ≠ Policy.error ∧ warningC17.prototypes ≠ Policy.error ∧
    buildFails warningC17 (headerEnv boolOfVoid) signature_check = false :=
  ⟨by decide, by decide,
    (C2_exact_type_accepted warningC17).2.2.2.1 (by decide) (by decide)⟩

/-- C3: whenever the guard accepts, the declared type of the external
function is compatible with the expected type, and its return type is
`bool`. -/
theorem C3_accepted_is_compatible (std : Std) (F : FunType)
    (h : guardAccepts std F = true) :
    compat (expectedType std) (resolve std F.toCType) = true ∧
    F.ret = .base .bool := by
  refine ⟨by rw [← guardAccepts_eq_compat]; exact h, ?_⟩
  cases std with
  | c17 =>
    rw [guardAccepts_c17] at h
    simp only [Bool.and_eq_true] at h
    exact eq_base_of_compat_base _ _ h.1
  | c23 =>
    rw [guardAccepts_c23] at h
    simp only [Bool.and_eq_true] at h
    exact eq_base_of_voidProto_eq_base _ _ (eq_base_of_compat_base _ _ h.1)

/-- Witness of C3 at `bool (int)` before C23. -/
theorem C3_accepted_is_compatible_witness :
    guardAccepts .c17 boolOfInt = true ∧
    compat (expectedType .c17) (resolve .c17 boolOfInt.toCType) = true ∧
    boolOfInt.ret = .base .bool :=
  ⟨by decide, C3_accepted_is_compatible .c17 boolOfInt (by decide)⟩

/-- C4: the unit defines no function and no identifier with external linkage;
its one definition is the internal `_check_sig`, which nothing in the unit
reads, calls or assigns; adding the unit to any program leaves the program
as it was and adds only that one binding to the unit itself. -/
theorem C4_no_runtime_effect (p : Program) :
    functionDefs signature_check = [] ∧
    objectDefs signature_check = [("_check_sig", Linkage.internal)] ∧
    signature_check.any (ExtDecl.mentions "_check_sig") = false ∧
    (includeUnit signature_check p).program = p ∧
    (includeUnit signature_check p).ownObjects =
      [("_check_sig", Val.addr "PostmasterIsAliveInternal")] ∧
    (includeUnit signature_check p).ownFunctions = [] := by
  refine ⟨by decide, by decide, by decide, rfl, rfl, rfl⟩

/-- C5: the verdict on `_check_sig` is determined by the expected type and the
declared type of `PostmasterIsAliveInternal`: two compilations, whatever their
language standard and whatever else their headers declare, that agree on
these two types give the same verdict. -/
theorem C5_verdict_depends_on_types_only (std1 std2 : Std) (env1 env2 : Env)
    (hE : resolve std1 _check_sig.type = resolve std2 _check_sig.type)
    (hF : (env1 "PostmasterIsAliveInternal").map (resolve std1) =
      (env2 "PostmasterIsAliveInternal").map (resolve std2)) :
    checkDecl std1 env1 _check_sig = checkDecl std2 env2 _check_sig := by
  have hptr : ∀ (s : Std) (t : CType), resolve s (decay (.ptr t)) = .ptr (resolve s t) := by
    intro s t
    cases s <;> simp [resolve, decay, voidProto]
  have key : ∀ (s : Std) (env : Env), checkDecl s env _check_sig =
      match (env "PostmasterIsAliveInternal").map (resolve s) with
      | none => false
      | some t => assignable (resolve s _check_sig.type) (.ptr t) := by
    intro s env
    cases hx : env "PostmasterIsAliveInternal" with
    | none => simp [checkDecl, _check_sig, Expr.valueType, Expr.type, hx]
    | some t =>
      simp only [checkDecl, _check_sig, Expr.valueType, Expr.type, hx, Option.map_some']
      rw [hptr]
  rw [key std1 env1, key std2 env2, hE, hF]

/-- Witness of C5: the same type `bool (int)` in two header environments that
differ on every other identifier. -/
theorem C5_verdict_depends_on_types_only_witness :
    headerEnv boolOfInt "errno" ≠ crowdedEnv boolOfInt "errno" ∧
    checkDecl .c17 (headerEnv boolOfInt) _check_sig =
      checkDecl .c17 (crowdedEnv boolOfInt) _check_sig :=
  ⟨by decide,
    C5_verdict_depends_on_types_only .c17 .c17 (headerEnv boolOfInt) (crowdedEnv boolOfInt)
      rfl rfl⟩

/-- C6 as stated fails: `_check_sig` carries no marking, and under a toolchain
that treats unused bindings as errors the unit, though its type check passes,
draws the unused-variable error and the build fails; and under such a
toolchain that silences the incompatible-pointer diagnostic, a rejected
initialiser draws no type-mismatch diagnostic. -/
theorem C6_unmarked_binding_fails_strict_build :
    guardAccepts strictC17.std boolOfVoid = true ∧
    markedUnused _check_sig = false ∧
    (Diag.unusedVariable "_check_sig", Severity.error) ∈
      diagnostics strictC17 (headerEnv boolOfVoid) signature_check ∧
    buildFails strictC17 (headerEnv boolOfVoid) signature_check = true ∧
    buildFails (strictC17.withUnused Policy.silent) (headerEnv boolOfVoid)
      signature_check = false ∧
    guardAccepts quietMismatchC17.std intOfVoid = false ∧
    diagnostics quietMismatchC17 (headerEnv intOfVoid) signature_check =
      [(Diag.unusedVariable "_check_sig", Severity.error)] := by
  decide

/-- C6 amended: `_check_sig` is not marked. Where the toolchain does not treat
unused bindings as errors, the unused binding draws no error and the build
ends as it would with unused bindings not reported at all; where it does, the
unused-variable error is drawn. Whatever the treatment of unused bindings, the
type-mismatch diagnostic is drawn exactly when the guard rejects and the
toolchain reports it, with the severity the toolchain gives it. -/
theorem C6_unused_binding_tolerated (tc : Toolchain) (F : FunType) :
    markedUnused _check_sig = false ∧
    (tc.unused ≠ Policy.error →
      (Diag.unusedVariable "_check_sig", Severity.error) ∉
        diagnostics tc (headerEnv F) signature_check ∧
      buildFails tc (headerEnv F) signature_check =
        buildFails (tc.withUnused Policy.silent) (headerEnv F) signature_check) ∧
    (tc.unused = Policy.error →
      (Diag.unusedVariable "_check_sig", Severity.error) ∈
        diagnostics tc (headerEnv F) signature_check) ∧
    (∀ sev : Severity,
      (Diag.incompatibleInit "_check_sig", sev) ∈
          diagnostics tc (headerEnv F) signature_check ↔
        (guardAccepts tc.std F = false ∧ tc.mismatch.severity = some sev)) := by
  refine ⟨by decide, ?_, ?_, ?_⟩
  · intro h
    rw [buildFails, buildFails, diagnostics_signature_check, diagnostics_signature_check]
    cases tc with
    | mk std mismatch unused prototypes =>
      cases unused with
      | error => exact absurd rfl h
      | silent =>
        cases hg : guardAccepts std F <;> cases std <;> cases mismatch <;>
          cases prototypes <;>
          simp [report, Policy.severity, Toolchain.withUnused, hg]
      | warning =>
        cases hg : guardAccepts std F <;> cases std <;> cases mismatch <;>
          cases prototypes <;>
          simp [report, Policy.severity, Toolchain.withUnused, hg]
  · intro h
    rw [diagnostics_signature_check]
    cases tc with
    | mk std mismatch unused prototypes =>
      simp only at h
      subst h
      simp [report, Policy.severity]
  · intro sev
    rw [diagnostics_signature_check]
    cases tc with
    | mk std mismatch unused prototypes =>
      cases hg : guardAccepts std F <;> cases std <;> cases mismatch <;>
        cases unused <;> cases prototypes <;> cases sev <;>
        simp [report, Policy.severity, hg]

/-- Witness of C6 amended: unused bindings reported as warnings, external
function of type `bool (void)`. -/
theorem C6_unused_binding_tolerated_witness :
    warningC17.unused ≠ Policy.error ∧
    (Diag.unusedVariable "_check_sig", Severity.error) ∉
      diagnostics warningC17 (headerEnv boolOfVoid) signature_check ∧
    buildFails warningC17 (headerEnv boolOfVoid) signature_check =
      buildFails (warningC17.withUnused Policy.silent) (headerEnv boolOfVoid)
        signature_check :=
  ⟨by decide, (C6_unused_binding_tolerated warningC17 boolOfVoid).2.1 (by decide)⟩

/-- C7: under a standard before C23, two function types without `...` that
have the same return type and parameter types unchanged by the default
argument promotions get the same verdict, and such a type is accepted when it
returns `bool`. -/
theorem C7_parameter_list_insensitive (F1 F2 : FunType)
    (hret : F1.ret = F2.ret)
    (h1 : F1.promotedNonVariadic = true) (h2 : F2.promotedNonVariadic = true) :
    guardAccepts .c17 F1 = guardAccepts .c17 F2 ∧
    (F1.ret = .base .bool → guardAccepts .c17 F1 = true) := by
  have key : ∀ F : FunType, F.promotedNonVariadic = true →
      compatParams .unspecified F.params = true := by
    intro F hF
    unfold FunType.promotedNonVariadic at hF
    cases hp : F.params with
    | unspecified => simp [compatParams]
    | proto ps v =>
      rw [hp] at hF
      simp only [Bool.and_eq_true, Bool.not_eq_true', List.all_eq_true,
        decide_eq_true_eq] at hF
      simp [compatParams, hF.1, allPromotionStable_of_promote_eq ps hF.2]
  refine ⟨?_, ?_⟩
  · rw [guardAccepts_c17, guardAccepts_c17, key F1 h1, key F2 h2, hret]
  · intro hb
    rw [guardAccepts_c17, key F1 h1, hb]
    decide

/-- Witness of C7: `bool (void)` and `bool (int)` are both accepted. -/
theorem C7_parameter_list_insensitive_witness :
    boolOfVoid.ret = boolOfInt.ret ∧
    boolOfVoid.promotedNonVariadic = true ∧ boolOfInt.promotedNonVariadic = true ∧
    guardAccepts .c17 boolOfVoid = guardAccepts .c17 boolOfInt ∧
    (boolOfVoid.ret = .base .bool → guardAccepts .c17 boolOfVoid = true) :=
  ⟨rfl, by decide, by decide,
    C7_parameter_list_insensitive boolOfVoid boolOfInt rfl (by decide) (by decide)⟩

end SignatureCheck
